import Mathlib

/-! Verification development for the CIP analytics client (an Avatica-protocol
SQL-over-HTTP client).  The definitions below are a shallow embedding of the
protocol session engine (`src/cip-client.ts`), the value decoder
(`src/utils.ts`) and the pagination helpers (`src/data/helpers.ts`).

JavaScript values are modelled as follows: `undefined`/absent fields become
`Option.none`; JS numbers carrying integral wire data become `Int`; JS numbers
in double-payload positions become `Rat` (exact stand-in for the float values
the code only passes through, never computes with); protobuf `Long` objects,
plain numbers and numeric strings feeding numeric coercions become the
`WireNum` sum.  The ambient clock used by the `JAVA_SQL_TIME` decode branch is
passed in explicitly as `todayMidnight`.
-/

namespace CIP

/-- The Avatica `Rep` enum from `src/protocol.d.ts` (representation kind tags). -/
inductive Rep where
  | PRIMITIVE_BOOLEAN
  | PRIMITIVE_BYTE
  | PRIMITIVE_CHAR
  | PRIMITIVE_SHORT
  | PRIMITIVE_INT
  | PRIMITIVE_LONG
  | PRIMITIVE_FLOAT
  | PRIMITIVE_DOUBLE
  | BOOLEAN
  | BYTE
  | CHARACTER
  | SHORT
  | INTEGER
  | LONG
  | FLOAT
  | DOUBLE
  | BIG_INTEGER
  | BIG_DECIMAL
  | JAVA_SQL_TIME
  | JAVA_SQL_TIMESTAMP
  | JAVA_SQL_DATE
  | JAVA_UTIL_DATE
  | BYTE_STRING
  | STRING
  | NUMBER
  | OBJECT
  | NULL
  | ARRAY
  | STRUCT
  | MULTISET
  deriving DecidableEq, Repr

/-- A wire-level numeric payload as it reaches the JS numeric coercions:
either a boxed protobuf `Long` (an object with a `toNumber` method), a plain
JS number, or a decimal numeric string (the value each one denotes is `n`). -/
inductive WireNum where
  | long (n : Int)
  | plain (n : Int)
  | str (n : Int)
  deriving DecidableEq, Repr

/-- The value produced by the JS expression
`typeof v === "object" && v.toNumber ? v.toNumber() : Number(v)`
on a present numeric payload. -/
def WireNum.toNumberJS : WireNum → Int
  | .long n => n
  | .plain n => n
  | .str n => n

/-- The Avatica `TypedValue` wire message: a representation tag, a null flag,
and the optional payload fields (`arrayValue` nests further `TypedValue`s,
hence the inductive rather than a structure). -/
inductive TypedValue where
  | mk (type : Rep) (null : Bool) (boolValue : Option Bool)
      (stringValue : Option String) (numberValue : Option WireNum)
      (doubleValue : Option Rat) (bytesValue : Option (List Nat))
      (arrayValue : Option (List TypedValue)) (componentType : Option Rep)

def TypedValue.type : TypedValue → Rep
  | .mk t _ _ _ _ _ _ _ _ => t

def TypedValue.null : TypedValue → Bool
  | .mk _ nl _ _ _ _ _ _ _ => nl

def TypedValue.boolValue : TypedValue → Option Bool
  | .mk _ _ bv _ _ _ _ _ _ => bv

def TypedValue.stringValue : TypedValue → Option String
  | .mk _ _ _ sv _ _ _ _ _ => sv

def TypedValue.numberValue : TypedValue → Option WireNum
  | .mk _ _ _ _ nv _ _ _ _ => nv

def TypedValue.doubleValue : TypedValue → Option Rat
  | .mk _ _ _ _ _ dv _ _ _ => dv

def TypedValue.bytesValue : TypedValue → Option (List Nat)
  | .mk _ _ _ _ _ _ bs _ _ => bs

def TypedValue.arrayValue : TypedValue → Option (List TypedValue)
  | .mk _ _ _ _ _ _ _ av _ => av

def TypedValue.componentType : TypedValue → Option Rep
  | .mk _ _ _ _ _ _ _ _ ct => ct

/-- The JS values `decodeValue` can produce.  `vUndef` is JS `undefined`
(returned when a payload field the code reads is absent), `vNaN` is the
`Number(undefined)` result, `vDate ms` is `new Date(ms)`, `vInvalidDate` is a
`Date` built from `NaN`, and `vDateStr s` is `new Date(s)` for a string `s`. -/
inductive JSValue where
  | vNull
  | vUndef
  | vBool (b : Bool)
  | vStr (s : String)
  | vNum (n : Int)
  | vNaN
  | vDouble (q : Rat)
  | vBytes (bs : List Nat)
  | vArr (xs : List TypedValue)
  | vDate (ms : Int)
  | vInvalidDate
  | vDateStr (s : String)

/-- The `AvaticaType` nested type descriptor (only the `id` and `name` fields,
the ones `decodeValue` consults). -/
structure AvaticaType where
  id : Option Int
  name : Option String

/-- Column metadata (only the `type` field, the one `decodeValue` consults). -/
structure ColumnMetaData where
  type : Option AvaticaType

/-- A `ColumnValue` cell: `decodeValue` only handles the `scalarValue` field. -/
structure ColumnValue where
  scalarValue : Option TypedValue

/-- The `default:` arm of `decodeValue`'s switch: return whichever payload
field is populated, tried in the fixed priority order string
(`!== undefined && !== ''`), number, double, bytes, array, boolean; when a
string payload is present but empty, or absent, fall through to the same
remaining chain (written twice below, once per string-match arm, exactly as
the early-return `if` chain of the source linearizes). -/
def decodeFallback (typedValue : TypedValue) : JSValue :=
  match typedValue.stringValue with
  | some s =>
    if s = "" then
      (match typedValue.numberValue with
       | some w => JSValue.vNum w.toNumberJS
       | none =>
         match typedValue.doubleValue with
         | some q => JSValue.vDouble q
         | none =>
           match typedValue.bytesValue with
           | some bs => JSValue.vBytes bs
           | none =>
             match typedValue.arrayValue with
             | some xs => JSValue.vArr xs
             | none =>
               match typedValue.boolValue with
               | some b => JSValue.vBool b
               | none => JSValue.vNull)
    else JSValue.vStr s
  | none =>
    match typedValue.numberValue with
    | some w => JSValue.vNum w.toNumberJS
    | none =>
      match typedValue.doubleValue with
      | some q => JSValue.vDouble q
      | none =>
        match typedValue.bytesValue with
        | some bs => JSValue.vBytes bs
        | none =>
          match typedValue.arrayValue with
          | some xs => JSValue.vArr xs
          | none =>
            match typedValue.boolValue with
            | some b => JSValue.vBool b
            | none => JSValue.vNull

/-- The single body shared by the ten integer-kind `case` labels of
`decodeValue`'s switch: if the column metadata's declared type is `DATE`
(name `"DATE"` or id 91) the number is days since epoch, if `TIMESTAMP`
(name `"TIMESTAMP"` or id 93) it is milliseconds since epoch, otherwise it
decodes as a plain number. -/
def decodeIntegerTagged (typedValue : TypedValue)
    (columnMetadata : Option ColumnMetaData) : JSValue :=
  match columnMetadata.bind (fun m => m.type) with
  | some avaticaType =>
    if avaticaType.name = some "DATE" ∨ avaticaType.id = some 91 then
      (match typedValue.numberValue with
       | some w => JSValue.vDate (w.toNumberJS * 24 * 60 * 60 * 1000)
       | none => JSValue.vInvalidDate)
    else if avaticaType.name = some "TIMESTAMP" ∨ avaticaType.id = some 93 then
      (match typedValue.numberValue with
       | some w => JSValue.vDate w.toNumberJS
       | none => JSValue.vInvalidDate)
    else
      (match typedValue.numberValue with
       | some w => JSValue.vNum w.toNumberJS
       | none => JSValue.vNaN)
  | none =>
    (match typedValue.numberValue with
     | some w => JSValue.vNum w.toNumberJS
     | none => JSValue.vNaN)

/-- Function `decodeValue` from `src/utils.ts`: converts one wire cell into a JS value,
using the column metadata to disambiguate integer-tagged dates/timestamps.
`todayMidnight` is `new Date()` with hours zeroed, as read by the
`JAVA_SQL_TIME` branch. -/
def decodeValue (todayMidnight : Int) (columnValue : ColumnValue)
    (columnMetadata : Option ColumnMetaData) : JSValue :=
  match columnValue.scalarValue with
  | none => JSValue.vNull
  | some typedValue =>
    if typedValue.null then JSValue.vNull
    else
      match typedValue.type with
      | Rep.BOOLEAN | Rep.PRIMITIVE_BOOLEAN =>
        (match typedValue.boolValue with
         | some b => JSValue.vBool b
         | none => JSValue.vUndef)
      | Rep.STRING =>
        (match typedValue.stringValue with
         | some s => JSValue.vStr s
         | none => JSValue.vUndef)
      | Rep.BYTE | Rep.PRIMITIVE_BYTE | Rep.SHORT | Rep.PRIMITIVE_SHORT
      | Rep.INTEGER | Rep.PRIMITIVE_INT | Rep.LONG | Rep.PRIMITIVE_LONG
      | Rep.BIG_INTEGER | Rep.NUMBER =>
        decodeIntegerTagged typedValue columnMetadata
      | Rep.FLOAT | Rep.PRIMITIVE_FLOAT | Rep.DOUBLE | Rep.PRIMITIVE_DOUBLE
      | Rep.BIG_DECIMAL =>
        (match typedValue.doubleValue with
         | some q => JSValue.vDouble q
         | none => JSValue.vUndef)
      | Rep.BYTE_STRING =>
        (match typedValue.bytesValue with
         | some bs => JSValue.vBytes bs
         | none => JSValue.vUndef)
      | Rep.ARRAY =>
        (match typedValue.arrayValue with
         | some xs => JSValue.vArr xs
         | none => JSValue.vUndef)
      | Rep.JAVA_SQL_DATE | Rep.JAVA_UTIL_DATE =>
        (match typedValue.numberValue with
         | some w => JSValue.vDate w.toNumberJS
         | none =>
           match typedValue.stringValue with
           | some s => JSValue.vDateStr s
           | none => JSValue.vNull)
      | Rep.JAVA_SQL_TIMESTAMP =>
        (match typedValue.numberValue with
         | some w => JSValue.vDate w.toNumberJS
         | none =>
           match typedValue.stringValue with
           | some s => JSValue.vDateStr s
           | none => JSValue.vNull)
      | Rep.JAVA_SQL_TIME =>
        (match typedValue.numberValue with
         | some w => JSValue.vDate (todayMidnight + w.toNumberJS)
         | none =>
           match typedValue.stringValue with
           | some s => JSValue.vDateStr (String.append "1970-01-01T" s)
           | none => JSValue.vNull)
      | _ => decodeFallback typedValue

/-- The ten integer representation kinds grouped by `decodeValue`'s
date/timestamp disambiguation branch. -/
def intRep : Rep → Bool
  | Rep.BYTE | Rep.PRIMITIVE_BYTE | Rep.SHORT | Rep.PRIMITIVE_SHORT
  | Rep.INTEGER | Rep.PRIMITIVE_INT | Rep.LONG | Rep.PRIMITIVE_LONG
  | Rep.BIG_INTEGER | Rep.NUMBER => true
  | _ => false

/-- The representation kinds that fall into `decodeValue`'s `default`
fallback branch (no explicit decode rule). -/
def defaultRep : Rep → Bool
  | Rep.PRIMITIVE_CHAR | Rep.CHARACTER | Rep.OBJECT | Rep.NULL
  | Rep.STRUCT | Rep.MULTISET => true
  | _ => false

/-- A JS value passed as a bound parameter to `createTypedValue`
(`src/cip-client.ts`).  The constructors are the disjoint classes the
method's `typeof`/`instanceof` chain distinguishes: `jnull` is
`null`/`undefined`, `jnum` is a JS number (a `Rat`, exact for the
`Number.isInteger` test `q.den = 1`), `jdate ms` is a `Date` whose `getTime()`
is `ms`, `jbytes` is a `Uint8Array`/`Buffer`, and `jobj s` is any other value
whose `String(value)` conversion is `s`. -/
inductive JSParam where
  | jnull
  | jstr (s : String)
  | jnum (q : Rat)
  | jbool (b : Bool)
  | jdate (ms : Int)
  | jbytes (bs : List Nat)
  | jarr (xs : List JSParam)
  | jobj (s : String)

mutual

/-- Method `CIPClient.createTypedValue`: converts a JS value to an Avatica
`TypedValue` for parameter binding, rule by rule in the source's order. -/
def createTypedValue : JSParam → TypedValue
  | .jnull => .mk Rep.NULL true none none none none none none none
  | .jstr s => .mk Rep.STRING false none (some s) none none none none none
  | .jnum q =>
    if q.den = 1 then
      .mk Rep.LONG false none none (some (WireNum.plain q.num)) none none none none
    else
      .mk Rep.DOUBLE false none none none (some q) none none none
  | .jbool b => .mk Rep.BOOLEAN false (some b) none none none none none none
  | .jdate ms =>
    .mk Rep.JAVA_SQL_DATE false none none (some (WireNum.plain ms)) none none none none
  | .jbytes bs => .mk Rep.BYTE_STRING false none none none none (some bs) none none
  | .jarr xs =>
    let arrayValues := createTypedValueList xs
    .mk Rep.ARRAY false none none none none none (some arrayValues)
      (some (match arrayValues with
             | [] => Rep.OBJECT
             | v :: _ => v.type))
  | .jobj s => .mk Rep.STRING false none (some s) none none none none none

/-- The mapping `value.map((v) => this.createTypedValue(v))` over a JS array. -/
def createTypedValueList : List JSParam → List TypedValue
  | [] => []
  | x :: xs => createTypedValue x :: createTypedValueList xs

end

/-! Frames and pagination (`normalizeFrame`, fetch loop). -/

/-- One row of a frame: the list of `ColumnValue` cells. -/
abbrev Row := List ColumnValue

/-- The wire form of a frame `offset`: absent (`undefined`), a boxed protobuf
`Long`, a plain number, or a decimal numeric string denoting `n`. -/
inductive OffsetWire where
  | absent
  | long (n : Int)
  | plain (n : Int)
  | str (n : Int)

/-- Method `CIPClient.normalizeLongValue`: an object with a `toNumber` method is
converted via that method, anything else via `Number(value || 0)`. -/
def normalizeLongValue : OffsetWire → Int
  | .absent => 0
  | .long n => n
  | .plain n => n
  | .str n => n

/-- A frame as decoded from the wire, before normalization. -/
structure RawFrame where
  offset : OffsetWire
  done : Bool
  rows : Option (List Row)

/-- A frame after `normalizeFrame`: plain integer offset, rows always
present. -/
structure NormFrame where
  offset : Int
  done : Bool
  rows : List Row

/-- Method `CIPClient.normalizeFrame`: a falsy input is passed through unchanged;
otherwise the offset is coerced by `normalizeLongValue` and `rows` is
defaulted to the empty list. -/
def normalizeFrame : Option RawFrame → Option NormFrame
  | none => none
  | some f => some { offset := normalizeLongValue f.offset, done := f.done,
                     rows := f.rows.getD [] }

/-- The fetch-until-done loop shared by `executeQuery` and
`executeParameterizedQuery` (`src/data/helpers.ts`): starting from the
(normalized) current frame, while `done` is false, issue a fetch at
`current.offset + current.rows.length`; the server's reply to each fetch is
the next element of `responses` (`none` = response with no frame, which ends
the loop).  Returns the list of offsets requested, in order.  The `responses`
list is assumed to cover the run; if it is exhausted the loop is cut short. -/
def fetchOffsets : NormFrame → List (Option NormFrame) → List Int
  | cur, responses =>
    if cur.done then []
    else
      match responses with
      | [] => []
      | none :: _ => [cur.offset + (cur.rows.length : Int)]
      | some f :: rest =>
        (cur.offset + (cur.rows.length : Int)) :: fetchOffsets f rest

/-! Session engine (`CIPClient` lifecycle, auth, request discipline). -/

/-- Cached token state (`TokenInfo` in `src/cip-client.ts`). -/
structure TokenInfo where
  accessToken : String
  expiresAt : Int
  deriving DecidableEq, Repr

/-- The OAuth token endpoint's reply, as consumed by `ensureValidToken`:
HTTP status outcome plus the decoded JSON fields. -/
structure TokenResp where
  ok : Bool
  status : Nat
  access_token : Option String
  expires_in : Option Int
  deriving DecidableEq, Repr

/-- The errors the client throws, structured by the taxonomy the message
strings encode. -/
inductive CIPError where
  | stateError (msg : String)
  | tokenHttpError (status : Nat)
  | noAccessToken
  | transportError (status : Nat) (body : String)
  | protocolError (errorMessage : String) (sqlState : String) (errorCode : Int)
  deriving DecidableEq, Repr

/-- The token-refresh body of `ensureValidToken`: POST to the token endpoint,
fail on a non-ok status or a missing `access_token`, otherwise cache the token
with `expiresAt = now + (expiresIn - 60) * 1000` where `expiresIn` is
`data.expires_in || 3600` (the JS `||` maps both absence and `0` to 3600). -/
def refreshToken (now : Int) (tr : TokenResp) : Except CIPError TokenInfo :=
  if tr.ok = false then Except.error (CIPError.tokenHttpError tr.status)
  else
    match tr.access_token with
    | none => Except.error CIPError.noAccessToken
    | some tok =>
      let expiresIn : Int :=
        match tr.expires_in with
        | some e => if e = 0 then 3600 else e
        | none => 3600
      Except.ok { accessToken := tok, expiresAt := now + (expiresIn - 60) * 1000 }

/-- Method `CIPClient.ensureValidToken`: refresh when there is no cached token or
`now >= expiresAt`, else keep the cached token.  The second component counts
token-endpoint calls made (0 or 1). -/
def ensureValidToken (now : Int) (ti : Option TokenInfo) (tr : TokenResp) :
    Except CIPError TokenInfo × Nat :=
  match ti with
  | none => (refreshToken now tr, 1)
  | some t =>
    if t.expiresAt ≤ now then (refreshToken now tr, 1)
    else (Except.ok t, 0)

/-- The trailing `$`-delimited segment of a qualified class name, i.e. the JS
`name.split("$").pop()`.  `cur` accumulates the current segment reversed. -/
def lastSegAux (cur : List Char) : List Char → List Char
  | [] => cur.reverse
  | c :: cs => if c = '$' then lastSegAux [] cs else lastSegAux (c :: cur) cs

/-- The expression `fullResponseClassName.split("$").pop()` from `sendRequest`. -/
def lastSegment (s : String) : String :=
  String.mk (lastSegAux [] s.data)

/-- The decoded error payload of an `ErrorResponse`. -/
structure ErrorDetails where
  errorMessage : String
  sqlState : String
  errorCode : Int
  deriving DecidableEq, Repr

/-- The wire envelope: a fully-qualified kind name plus the wrapped serialized
inner message (bytes left abstract). -/
structure WireMessage where
  name : String
  wrappedMessage : List Nat
  deriving DecidableEq, Repr

/-- A decoded non-error response, restricted to the fields the verified
operations inspect (`connectionId` for `openConnection`, `frame` for
`fetch`). -/
structure RespVal where
  connectionId : Option String
  frame : Option RawFrame

/-- Mutable per-client state (`CIPClient`'s `connectionId`, `sessionId`,
`tokenInfo` fields). -/
structure ClientState where
  connectionId : Option String
  sessionId : Option String
  tokenInfo : Option TokenInfo

/-- The environment one `sendRequest` call runs against: the clock, the token
endpoint's reply, the HTTP reply (status, sticky-session header, body
envelope) and the protobuf schema decoders for the inner payloads (left as
parameters: payload (de)serialization is CPU-bound library code). -/
structure Env where
  now : Int
  tokenResp : TokenResp
  httpOk : Bool
  httpStatus : Nat
  httpBody : String
  respSessionHeader : Option String
  respWire : WireMessage
  decodeErr : List Nat → ErrorDetails
  decodeResp : String → List Nat → RespVal

/-- The observable outcome of one client operation: the state afterwards, the
number of token-endpoint calls, the sticky-session header values attached to
each main POST actually sent, the bearer tokens attached to each main POST,
and the operation's result. -/
structure OpResult (α : Type) where
  state : ClientState
  refreshCalls : Nat
  sentSession : List (Option String)
  sentAuth : List String
  result : Except CIPError α

/-- Method `CIPClient.sendRequest`: ensure a valid token (refreshing first if
needed), POST the encoded envelope with the bearer and sticky-session
headers, record a sticky-session header from the reply (a falsy header is
ignored), fail on a non-2xx status, then decode the reply envelope and
classify it: a trailing identifier segment of `ErrorResponse` raises a
protocol error built from the decoded error payload, anything else returns
the decoded payload.  The sticky-session recording (`recordSession`, source
lines 399-404: `if (sessionId) this.sessionId = sessionId`) happens before
the status check, so it applies on error paths too. -/
def recordSession (st : ClientState) (header : Option String) : ClientState :=
  match header with
  | some s => if s = "" then st else { st with sessionId := some s }
  | none => st

/-- Classification of a reply envelope that passed the HTTP status check
(`sendRequest` steps 5-7): a non-2xx status is a transport error; a trailing
identifier segment of `ErrorResponse` is a protocol error built from the
decoded error payload; anything else is the payload decoded under the schema
the trailing segment names. -/
def classifyResponse (env : Env) : Except CIPError RespVal :=
  if env.httpOk = false then
    Except.error (CIPError.transportError env.httpStatus env.httpBody)
  else if lastSegment env.respWire.name = "ErrorResponse" then
    let d := env.decodeErr env.respWire.wrappedMessage
    Except.error (CIPError.protocolError d.errorMessage d.sqlState d.errorCode)
  else
    Except.ok (env.decodeResp (lastSegment env.respWire.name)
      env.respWire.wrappedMessage)

/-- Method `CIPClient.sendRequest` as one state transition: ensure a valid token
(refreshing first if necessary), POST the envelope carrying the bearer token
and the current sticky-session header, record a sticky-session header from
the reply, then classify the reply via `classifyResponse`. -/
def sendRequestStep (st : ClientState) (env : Env) : OpResult RespVal :=
  match ensureValidToken env.now st.tokenInfo env.tokenResp with
  | (Except.error e, r) =>
    { state := st, refreshCalls := r, sentSession := [], sentAuth := [],
      result := Except.error e }
  | (Except.ok ti, r) =>
    { state := recordSession { st with tokenInfo := some ti } env.respSessionHeader,
      refreshCalls := r, sentSession := [st.sessionId],
      sentAuth := [ti.accessToken],
      result := classifyResponse env }

/-- The guard failure shared by every statement operation: thrown before
`sendRequest`, so no network traffic of any kind occurs. -/
def noConnResult (st : ClientState) : OpResult RespVal :=
  { state := st, refreshCalls := 0, sentSession := [], sentAuth := [],
    result := Except.error
      (CIPError.stateError "No connection available. Call openConnection() first.") }

/-- Method `CIPClient.openConnection`: fail if already open; otherwise send the open
request (with a freshly generated id `genId`) and adopt the server-returned
connection id when it is truthy, else keep `genId`. -/
def openConnectionOp (st : ClientState) (genId : String) (env : Env) :
    OpResult Unit :=
  match st.connectionId with
  | some _ =>
    { state := st, refreshCalls := 0, sentSession := [], sentAuth := [],
      result := Except.error
        (CIPError.stateError "Connection already open. Close the existing connection first.") }
  | none =>
    let r := sendRequestStep st env
    match r.result with
    | Except.error e =>
      { state := r.state, refreshCalls := r.refreshCalls,
        sentSession := r.sentSession, sentAuth := r.sentAuth,
        result := Except.error e }
    | Except.ok rv =>
      let cid : String :=
        match rv.connectionId with
        | some s => if s = "" then genId else s
        | none => genId
      { state := { r.state with connectionId := some cid },
        refreshCalls := r.refreshCalls, sentSession := r.sentSession,
        sentAuth := r.sentAuth, result := Except.ok () }

/-- Method `CIPClient.closeConnection`: fail if not open; otherwise send the close
request and clear the connection id only after it succeeds. -/
def closeConnectionOp (st : ClientState) (env : Env) : OpResult Unit :=
  match st.connectionId with
  | none =>
    { state := st, refreshCalls := 0, sentSession := [], sentAuth := [],
      result := Except.error (CIPError.stateError "No connection to close.") }
  | some _ =>
    let r := sendRequestStep st env
    match r.result with
    | Except.error e =>
      { state := r.state, refreshCalls := r.refreshCalls,
        sentSession := r.sentSession, sentAuth := r.sentAuth,
        result := Except.error e }
    | Except.ok _ =>
      { state := { r.state with connectionId := none },
        refreshCalls := r.refreshCalls, sentSession := r.sentSession,
        sentAuth := r.sentAuth, result := Except.ok () }

/-- Method `CIPClient.createStatement`: guard on an open connection, then send.
(The request payload and the `statementId` projection of the response are not
modelled.) -/
def createStatementOp (st : ClientState) (env : Env) : OpResult RespVal :=
  match st.connectionId with
  | none => noConnResult st
  | some _ => sendRequestStep st env

/-- Method `CIPClient.closeStatement`: guard on an open connection, then send. -/
def closeStatementOp (st : ClientState) (env : Env) : OpResult RespVal :=
  match st.connectionId with
  | none => noConnResult st
  | some _ => sendRequestStep st env

/-- Method `CIPClient.execute` (PrepareAndExecuteRequest): guard on an open
connection, then send.  (Result-frame normalization is covered separately by
`normalizeFrame`.) -/
def executeOp (st : ClientState) (env : Env) : OpResult RespVal :=
  match st.connectionId with
  | none => noConnResult st
  | some _ => sendRequestStep st env

/-- Method `CIPClient.prepare`: guard on an open connection, then send. -/
def prepareOp (st : ClientState) (env : Env) : OpResult RespVal :=
  match st.connectionId with
  | none => noConnResult st
  | some _ => sendRequestStep st env

/-- Method `CIPClient.executeWithParameters`: guard on an open connection, convert
the parameters via `createTypedValue`, then send. -/
def executeWithParametersOp (st : ClientState) (params : List JSParam)
    (env : Env) : OpResult RespVal :=
  match st.connectionId with
  | none => noConnResult st
  | some _ =>
    let _parameterValues := createTypedValueList params
    sendRequestStep st env

/-- Method `CIPClient.fetch`: guard on an open connection, send, and normalize the
`frame` field of a successful response (the result is that field after
normalization; a response without a frame keeps `none`). -/
def fetchOp (st : ClientState) (env : Env) : OpResult (Option NormFrame) :=
  match st.connectionId with
  | none =>
    { state := st, refreshCalls := 0, sentSession := [], sentAuth := [],
      result := Except.error
        (CIPError.stateError "No connection available. Call openConnection() first.") }
  | some _ =>
    let r := sendRequestStep st env
    match r.result with
    | Except.error e =>
      { state := r.state, refreshCalls := r.refreshCalls,
        sentSession := r.sentSession, sentAuth := r.sentAuth,
        result := Except.error e }
    | Except.ok rv =>
      { state := r.state, refreshCalls := r.refreshCalls,
        sentSession := r.sentSession, sentAuth := r.sentAuth,
        result := Except.ok (normalizeFrame rv.frame) }

/-! Concrete states and environments for the closed instances. -/

/-- A session state holding an open connection, a previously observed sticky
session token, and a cached token valid until `expiresAt = 1000000`. -/
def stOpen : ClientState :=
  { connectionId := some "conn-1", sessionId := some "sticky-1",
    tokenInfo := some { accessToken := "tok", expiresAt := 1000000 } }

/-- A benign all-ok request environment at `now = 0`. -/
def envStub : Env :=
  { now := 0,
    tokenResp := { ok := true, status := 200, access_token := some "tok",
                   expires_in := some 3600 },
    httpOk := true, httpStatus := 200, httpBody := "",
    respSessionHeader := none,
    respWire := { name := "org.apache.calcite.avatica.proto.Responses$CloseConnectionResponse",
                  wrappedMessage := [] },
    decodeErr := fun _ => { errorMessage := "boom", sqlState := "42000", errorCode := 7 },
    decodeResp := fun _ _ => { connectionId := some "srv-conn", frame := none } }

/-- An environment whose reply envelope is an `ErrorResponse`. -/
def errEnv : Env :=
  { envStub with
    respWire := { name := "org.apache.calcite.avatica.proto.Responses$ErrorResponse",
                  wrappedMessage := [] } }

/-! Helper lemmas on the session engine. -/

theorem recordSession_connectionId (st : ClientState) (h : Option String) :
    (recordSession st h).connectionId = st.connectionId := by
  unfold recordSession
  cases h with
  | none => rfl
  | some s =>
    by_cases hs : s = "" <;> simp [hs]

theorem recordSession_sessionId_none (st : ClientState) :
    (recordSession st none).sessionId = st.sessionId := rfl

theorem sendRequestStep_ok (st : ClientState) (env : Env) (ti : TokenInfo)
    (r : Nat)
    (htok : ensureValidToken env.now st.tokenInfo env.tokenResp = (Except.ok ti, r)) :
    sendRequestStep st env =
      { state := recordSession { st with tokenInfo := some ti } env.respSessionHeader,
        refreshCalls := r, sentSession := [st.sessionId],
        sentAuth := [ti.accessToken], result := classifyResponse env } := by
  unfold sendRequestStep
  rw [htok]

theorem sendRequestStep_err (st : ClientState) (env : Env) (e : CIPError)
    (r : Nat)
    (htok : ensureValidToken env.now st.tokenInfo env.tokenResp = (Except.error e, r)) :
    sendRequestStep st env =
      { state := st, refreshCalls := r, sentSession := [], sentAuth := [],
        result := Except.error e } := by
  unfold sendRequestStep
  rw [htok]

theorem sendRequestStep_connectionId (st : ClientState) (env : Env) :
    (sendRequestStep st env).state.connectionId = st.connectionId := by
  rcases htok : ensureValidToken env.now st.tokenInfo env.tokenResp with ⟨res, r⟩
  cases res with
  | error e => rw [sendRequestStep_err st env e r htok]
  | ok ti =>
    rw [sendRequestStep_ok st env ti r htok]
    exact recordSession_connectionId _ _

theorem sendRequestStep_sessionId_none (st : ClientState) (env : Env)
    (hh : env.respSessionHeader = none) :
    (sendRequestStep st env).state.sessionId = st.sessionId := by
  rcases htok : ensureValidToken env.now st.tokenInfo env.tokenResp with ⟨res, r⟩
  cases res with
  | error e => rw [sendRequestStep_err st env e r htok]
  | ok ti =>
    rw [sendRequestStep_ok st env ti r htok, hh]
    exact recordSession_sessionId_none _

/-! Claims about the session engine. -/

/-- Claim C1: `execute`, `fetch`, `createStatement`, `closeStatement`,
`prepare` and `executeWithParameters` invoked while the Session holds no open
connection id fail with the "no active connection" state error, with no main
POST and no token-endpoint call; `openConnection` invoked while a connection
id is held fails with the "already open" state error, likewise before any
network call. -/
theorem session_discipline :
    (∀ (st : ClientState) (env : Env) (params : List JSParam),
       st.connectionId = none →
       ((executeOp st env).result = Except.error (CIPError.stateError
           "No connection available. Call openConnection() first.")
        ∧ (executeOp st env).sentSession = []
        ∧ (executeOp st env).refreshCalls = 0)
       ∧ ((fetchOp st env).result = Except.error (CIPError.stateError
           "No connection available. Call openConnection() first.")
        ∧ (fetchOp st env).sentSession = []
        ∧ (fetchOp st env).refreshCalls = 0)
       ∧ ((createStatementOp st env).result = Except.error (CIPError.stateError
           "No connection available. Call openConnection() first.")
        ∧ (createStatementOp st env).sentSession = []
        ∧ (createStatementOp st env).refreshCalls = 0)
       ∧ ((closeStatementOp st env).result = Except.error (CIPError.stateError
           "No connection available. Call openConnection() first.")
        ∧ (closeStatementOp st env).sentSession = []
        ∧ (closeStatementOp st env).refreshCalls = 0)
       ∧ ((prepareOp st env).result = Except.error (CIPError.stateError
           "No connection available. Call openConnection() first.")
        ∧ (prepareOp st env).sentSession = []
        ∧ (prepareOp st env).refreshCalls = 0)
       ∧ ((executeWithParametersOp st params env).result = Except.error (CIPError.stateError
           "No connection available. Call openConnection() first.")
        ∧ (executeWithParametersOp st params env).sentSession = []
        ∧ (executeWithParametersOp st params env).refreshCalls = 0))
  ∧ (∀ (st : ClientState) (genId : String) (env : Env) (cid : String),
       st.connectionId = some cid →
       (openConnectionOp st genId env).result = Except.error (CIPError.stateError
           "Connection already open. Close the existing connection first.")
       ∧ (openConnectionOp st genId env).sentSession = []
       ∧ (openConnectionOp st genId env).refreshCalls = 0) := by
  constructor
  · intro st env params h
    simp [executeOp, fetchOp, createStatementOp, closeStatementOp, prepareOp,
      executeWithParametersOp, noConnResult, h]
  · intro st genId env cid h
    simp [openConnectionOp, h]

/-- Concrete instance: with no open connection, `execute` fails with the
state error and neither a main POST nor a token call is made. -/
theorem session_discipline_witness :
    ClientState.connectionId
        { connectionId := none, sessionId := none, tokenInfo := none } = none
    ∧ (executeOp { connectionId := none, sessionId := none, tokenInfo := none }
        envStub).result = Except.error (CIPError.stateError
          "No connection available. Call openConnection() first.")
    ∧ (executeOp { connectionId := none, sessionId := none, tokenInfo := none }
        envStub).sentSession = []
    ∧ (executeOp { connectionId := none, sessionId := none, tokenInfo := none }
        envStub).refreshCalls = 0 :=
  ⟨rfl, (session_discipline.1
    { connectionId := none, sessionId := none, tokenInfo := none } envStub [] rfl).1⟩

/-- Claim C4: a decoded envelope whose identifier's trailing `$`-segment is
`ErrorResponse` always yields a protocol error carrying the decoded error
message, SQL state and error code, and never a normal payload. -/
theorem error_classification (st : ClientState) (env : Env) (ti : TokenInfo)
    (r : Nat)
    (htok : ensureValidToken env.now st.tokenInfo env.tokenResp = (Except.ok ti, r))
    (hok : env.httpOk = true)
    (herr : lastSegment env.respWire.name = "ErrorResponse") :
    (sendRequestStep st env).result = Except.error (CIPError.protocolError
      (env.decodeErr env.respWire.wrappedMessage).errorMessage
      (env.decodeErr env.respWire.wrappedMessage).sqlState
      (env.decodeErr env.respWire.wrappedMessage).errorCode)
    ∧ ∀ rv : RespVal, (sendRequestStep st env).result ≠ Except.ok rv := by
  rw [sendRequestStep_ok st env ti r htok]
  simp [classifyResponse, hok, herr]

/-- Concrete instance: an `ErrorResponse` envelope raises the protocol error
with the decoded message, SQL state and code. -/
theorem error_classification_witness :
    (sendRequestStep stOpen errEnv).result =
      Except.error (CIPError.protocolError "boom" "42000" 7) :=
  (error_classification stOpen errEnv
    { accessToken := "tok", expiresAt := 1000000 } 0 rfl rfl rfl).1

/-- Claim C6: a token exchanged at time `now` with `expires_in = e` seconds is
cached with expiry `now + (e - 60) * 1000` milliseconds; an operation with a
cached token that has not reached that instant makes no token call; an
operation at or past that instant (or with no cached token) makes exactly one
token call before the main request, whose bearer header then carries the
fresh token. -/
theorem token_refresh :
    (∀ (now : Int) (tr : TokenResp) (tok : String) (e : Int),
       tr.ok = true → tr.access_token = some tok → tr.expires_in = some e →
       e ≠ 0 →
       refreshToken now tr =
         Except.ok { accessToken := tok, expiresAt := now + (e - 60) * 1000 })
  ∧ (∀ (st : ClientState) (env : Env) (t : TokenInfo),
       st.tokenInfo = some t → env.now < t.expiresAt →
       (sendRequestStep st env).refreshCalls = 0)
  ∧ (∀ (st : ClientState) (env : Env) (t : TokenInfo) (tok : String) (e : Int),
       st.tokenInfo = some t → t.expiresAt ≤ env.now →
       env.tokenResp.ok = true → env.tokenResp.access_token = some tok →
       env.tokenResp.expires_in = some e → e ≠ 0 →
       (sendRequestStep st env).refreshCalls = 1
       ∧ (sendRequestStep st env).sentAuth = [tok])
  ∧ (∀ (st : ClientState) (env : Env),
       st.tokenInfo = none → (sendRequestStep st env).refreshCalls = 1) := by
  refine ⟨?_, ?_, ?_, ?_⟩
  · intro now tr tok e hok htok hexp hne
    simp [refreshToken, hok, htok, hexp, hne]
  · intro st env t ht hlt
    have htok : ensureValidToken env.now st.tokenInfo env.tokenResp =
        (Except.ok t, 0) := by
      simp [ensureValidToken, ht, not_le.mpr hlt]
    rw [sendRequestStep_ok st env t 0 htok]
  · intro st env t tok e ht hle hok htk hexp hne
    have hrt : refreshToken env.now env.tokenResp =
        Except.ok { accessToken := tok, expiresAt := env.now + (e - 60) * 1000 } := by
      simp [refreshToken, hok, htk, hexp, hne]
    have htok : ensureValidToken env.now st.tokenInfo env.tokenResp =
        (Except.ok { accessToken := tok, expiresAt := env.now + (e - 60) * 1000 }, 1) := by
      simp [ensureValidToken, ht, hle, hrt]
    rw [sendRequestStep_ok st env _ 1 htok]
    exact ⟨rfl, rfl⟩
  · intro st env ht
    rcases hrt : refreshToken env.now env.tokenResp with e | ti
    · have htok : ensureValidToken env.now st.tokenInfo env.tokenResp =
          (Except.error e, 1) := by simp [ensureValidToken, ht, hrt]
      rw [sendRequestStep_err st env e 1 htok]
    · have htok : ensureValidToken env.now st.tokenInfo env.tokenResp =
          (Except.ok ti, 1) := by simp [ensureValidToken, ht, hrt]
      rw [sendRequestStep_ok st env ti 1 htok]

/-- Concrete instance of the spec scenario: `expires_in = 3600` at `now = 0`
caches expiry `3540000` ms; a request at `now = 3541000` with that cached
token makes exactly one refresh, and a request at `now = 3539999` makes
none. -/
theorem token_refresh_witness :
    refreshToken 0 { ok := true, status := 200, access_token := some "tokA",
                     expires_in := some 3600 } =
      Except.ok { accessToken := "tokA", expiresAt := 3540000 }
    ∧ (sendRequestStep
        { connectionId := some "c", sessionId := none,
          tokenInfo := some { accessToken := "tokA", expiresAt := 3540000 } }
        { envStub with now := 3541000 }).refreshCalls = 1
    ∧ (sendRequestStep
        { connectionId := some "c", sessionId := none,
          tokenInfo := some { accessToken := "tokA", expiresAt := 3540000 } }
        { envStub with now := 3539999 }).refreshCalls = 0 := by
  refine ⟨?_, ?_, ?_⟩
  · exact token_refresh.1 0 _ "tokA" 3600 rfl rfl rfl (by decide)
  · exact (token_refresh.2.2.1
      { connectionId := some "c", sessionId := none,
        tokenInfo := some { accessToken := "tokA", expiresAt := 3540000 } }
      { envStub with now := 3541000 }
      { accessToken := "tokA", expiresAt := 3540000 } "tok" 3600 rfl (by decide)
      rfl rfl rfl (by decide)).1
  · exact token_refresh.2.1
      { connectionId := some "c", sessionId := none,
        tokenInfo := some { accessToken := "tokA", expiresAt := 3540000 } }
      { envStub with now := 3539999 }
      { accessToken := "tokA", expiresAt := 3540000 } rfl (by decide)

/-- Claim C10 (amended wording is the claim itself): connection-id state is
atomic with respect to failures — a failing `openConnection` leaves the
Session unopened, a failing `closeConnection` leaves it open, and the id is
cleared exactly when the close request succeeds. -/
theorem connection_atomicity :
    (∀ (st : ClientState) (genId : String) (env : Env) (e : CIPError),
       st.connectionId = none →
       (openConnectionOp st genId env).result = Except.error e →
       (openConnectionOp st genId env).state.connectionId = none)
  ∧ (∀ (st : ClientState) (genId : String) (env : Env),
       st.connectionId = none →
       (openConnectionOp st genId env).result = Except.ok () →
       (openConnectionOp st genId env).state.connectionId ≠ none)
  ∧ (∀ (st : ClientState) (env : Env) (cid : String) (e : CIPError),
       st.connectionId = some cid →
       (closeConnectionOp st env).result = Except.error e →
       (closeConnectionOp st env).state.connectionId = some cid)
  ∧ (∀ (st : ClientState) (env : Env) (cid : String),
       st.connectionId = some cid →
       (closeConnectionOp st env).result = Except.ok () →
       (closeConnectionOp st env).state.connectionId = none) := by
  refine ⟨?_, ?_, ?_, ?_⟩
  · intro st genId env e h hres
    rcases hr : (sendRequestStep st env).result with e2 | rv
    · have := sendRequestStep_connectionId st env
      simp [openConnectionOp, h, hr, this]
    · simp [openConnectionOp, h, hr] at hres
  · intro st genId env h hres
    rcases hr : (sendRequestStep st env).result with e2 | rv
    · simp [openConnectionOp, h, hr] at hres
    · simp [openConnectionOp, h, hr]
  · intro st env cid e h hres
    rcases hr : (sendRequestStep st env).result with e2 | rv
    · have := sendRequestStep_connectionId st env
      simp [closeConnectionOp, h, hr, this]
    · simp [closeConnectionOp, h, hr] at hres
  · intro st env cid h hres
    rcases hr : (sendRequestStep st env).result with e2 | rv
    · simp [closeConnectionOp, h, hr] at hres
    · simp [closeConnectionOp, h, hr]

/-- Concrete instance: an `openConnection` whose transport call fails leaves
the connection id `none`; a successful `closeConnection` clears it. -/
theorem connection_atomicity_witness :
    (openConnectionOp { connectionId := none, sessionId := none, tokenInfo := none }
        "gen-1" { envStub with httpOk := false, httpStatus := 500 }).state.connectionId = none
    ∧ (closeConnectionOp stOpen envStub).state.connectionId = none := by
  constructor
  · exact connection_atomicity.1
      { connectionId := none, sessionId := none, tokenInfo := none } "gen-1"
      { envStub with httpOk := false, httpStatus := 500 }
      (CIPError.transportError 500 "") rfl rfl
  · exact connection_atomicity.2.2.2 stOpen envStub "conn-1" rfl rfl

/-- Counterexample to claim C9 as stated: with an open connection holding the
observed sticky token `"sticky-1"`, `closeConnection` succeeds and yet the
Session still carries the sticky session token (the source never clears
`sessionId`). -/
theorem sticky_cleared_on_close_false :
    ¬ ((closeConnectionOp stOpen envStub).result = Except.ok () →
       (closeConnectionOp stOpen envStub).state.sessionId = none) := by
  intro h
  exact Option.noConfusion (h rfl)

/-- Claim C9 (amended): every request sent carries the currently held sticky
session token, a non-empty header value observed on a response overwrites the
held one, and `closeConnection` leaves the held token unchanged (it is never
cleared; in particular it survives a successful close). -/
theorem sticky_session_amended :
    (∀ (st : ClientState) (env : Env) (ti : TokenInfo) (r : Nat),
       ensureValidToken env.now st.tokenInfo env.tokenResp = (Except.ok ti, r) →
       (sendRequestStep st env).sentSession = [st.sessionId])
  ∧ (∀ (st : ClientState) (env : Env) (ti : TokenInfo) (r : Nat) (s : String),
       ensureValidToken env.now st.tokenInfo env.tokenResp = (Except.ok ti, r) →
       env.respSessionHeader = some s → s ≠ "" →
       (sendRequestStep st env).state.sessionId = some s)
  ∧ (∀ (st : ClientState) (env : Env) (cid : String),
       st.connectionId = some cid → env.respSessionHeader = none →
       (closeConnectionOp st env).state.sessionId = st.sessionId) := by
  refine ⟨?_, ?_, ?_⟩
  · intro st env ti r htok
    rw [sendRequestStep_ok st env ti r htok]
  · intro st env ti r s htok hh hs
    rw [sendRequestStep_ok st env ti r htok]
    simp [recordSession, hh, hs]
  · intro st env cid h hh
    have hsid := sendRequestStep_sessionId_none st env hh
    rcases hr : (sendRequestStep st env).result with e | rv
    · simp [closeConnectionOp, h, hr, hsid]
    · simp [closeConnectionOp, h, hr, hsid]

/-- Concrete instance of the amended claim: the held token is attached to the
next request, a newly observed value overwrites it, and it survives a
successful close. -/
theorem sticky_session_amended_witness :
    (sendRequestStep stOpen envStub).sentSession = [some "sticky-1"]
    ∧ (sendRequestStep stOpen
        { envStub with respSessionHeader := some "sticky-2" }).state.sessionId
        = some "sticky-2"
    ∧ (closeConnectionOp stOpen envStub).state.sessionId = some "sticky-1" := by
  refine ⟨?_, ?_, ?_⟩
  · exact sticky_session_amended.1 stOpen envStub
      { accessToken := "tok", expiresAt := 1000000 } 0 rfl
  · exact sticky_session_amended.2.1 stOpen
      { envStub with respSessionHeader := some "sticky-2" }
      { accessToken := "tok", expiresAt := 1000000 } 0 "sticky-2" rfl rfl
      (by decide)
  · exact (sticky_session_amended.2.2 stOpen envStub "conn-1" rfl rfl).trans rfl

/-! Claims about pagination and frame normalization. -/

theorem fetchOffsets_done (cur : NormFrame) (rs : List (Option NormFrame))
    (h : cur.done = true) : fetchOffsets cur rs = [] := by
  unfold fetchOffsets
  simp [h]

theorem fetchOffsets_cons_some (cur f : NormFrame)
    (rest : List (Option NormFrame)) (h : cur.done = false) :
    fetchOffsets cur (some f :: rest)
      = (cur.offset + (cur.rows.length : Int)) :: fetchOffsets f rest := by
  conv_lhs => unfold fetchOffsets
  simp [h]

theorem fetchOffsets_cons_none (cur : NormFrame)
    (rest : List (Option NormFrame)) (h : cur.done = false) :
    fetchOffsets cur (none :: rest) = [cur.offset + (cur.rows.length : Int)] := by
  unfold fetchOffsets
  simp [h]

/-- Claim C2: starting from a first frame `f0` followed by further not-done
frames `fs`, the loop issues exactly one fetch per not-done frame, each at
`previous.offset + previous.rows.length`, and terminates as soon as the
server answers with a `done` frame or with no frame at all — even if further
responses (`extra`) would be available. -/
theorem pagination_loop (f0 : NormFrame) (fs : List NormFrame)
    (hall : ∀ f ∈ f0 :: fs, f.done = false) :
    (∀ (last : NormFrame) (extra : List (Option NormFrame)), last.done = true →
       fetchOffsets f0 (((fs ++ [last]).map some) ++ extra)
         = (f0 :: fs).map (fun f => f.offset + (f.rows.length : Int)))
  ∧ (∀ extra : List (Option NormFrame),
       fetchOffsets f0 ((fs.map some) ++ (none :: extra))
         = (f0 :: fs).map (fun f => f.offset + (f.rows.length : Int))) := by
  induction fs generalizing f0 with
  | nil =>
    have h0 : f0.done = false := hall f0 (by simp)
    constructor
    · intro last extra hlast
      have hre : ((([] : List NormFrame) ++ [last]).map some) ++ extra
          = some last :: extra := by simp
      rw [hre, fetchOffsets_cons_some f0 last extra h0,
        fetchOffsets_done last extra hlast]
      simp
    · intro extra
      have hre : ((([] : List NormFrame).map some) ++ (none :: extra))
          = none :: extra := by simp
      rw [hre, fetchOffsets_cons_none f0 extra h0]
      simp
  | cons f1 rest ih =>
    have h0 : f0.done = false := hall f0 (by simp)
    have hall1 : ∀ f ∈ f1 :: rest, f.done = false := fun f hf =>
      hall f (List.mem_cons_of_mem _ hf)
    obtain ⟨ih1, ih2⟩ := ih f1 hall1
    constructor
    · intro last extra hlast
      have hre : ((f1 :: rest) ++ [last]).map some ++ extra
          = some f1 :: (((rest ++ [last]).map some) ++ extra) := by simp
      rw [hre, fetchOffsets_cons_some f0 f1 _ h0, ih1 last extra hlast]
      simp
    · intro extra
      have hre : (f1 :: rest).map some ++ (none :: extra)
          = some f1 :: ((rest.map some) ++ (none :: extra)) := by simp
      rw [hre, fetchOffsets_cons_some f0 f1 _ h0, ih2 extra]
      simp

/-- Page 1 of the spec's 2,2,1 pagination scenario. -/
def frameA : NormFrame := { offset := 0, done := false, rows := [[], []] }

/-- Page 2 of the spec's 2,2,1 pagination scenario. -/
def frameB : NormFrame := { offset := 2, done := false, rows := [[], []] }

/-- Page 3 (final) of the spec's 2,2,1 pagination scenario. -/
def frameC : NormFrame := { offset := 4, done := true, rows := [[]] }

/-- Concrete instance of the spec scenario (5 rows in pages of 2, 2, 1): the
loop fetches at offsets 2 and 4 and stops at the done frame. -/
theorem pagination_loop_witness :
    fetchOffsets frameA ((([frameB] ++ [frameC]).map some) ++ []) = [2, 4] := by
  have h := (pagination_loop frameA [frameB]
    (by intro f hf; fin_cases hf <;> rfl)).1 frameC [] rfl
  simpa [frameA, frameB] using h

/-- Claim C5: `normalizeFrame` passes an absent frame through unchanged, and
for a present frame whose offset arrives as a boxed `Long`, a numeric string
or a plain number denoting `n`, it yields a plain integer offset `n` and
defaults missing `rows` to the empty list. -/
theorem normalize_frame (w : OffsetWire) (n : Int) (d : Bool)
    (r : Option (List Row)) :
    normalizeFrame none = none
    ∧ ((w = OffsetWire.long n ∨ w = OffsetWire.plain n ∨ w = OffsetWire.str n) →
       normalizeFrame (some { offset := w, done := d, rows := r })
         = some { offset := n, done := d, rows := r.getD [] }) := by
  constructor
  · rfl
  · rintro (rfl | rfl | rfl) <;> rfl

/-- Concrete instance: a string-encoded offset `"5"` with missing rows
normalizes to offset `5` with empty rows. -/
theorem normalize_frame_witness :
    normalizeFrame (some { offset := OffsetWire.str 5, done := false, rows := none })
      = some { offset := 5, done := false, rows := [] } :=
  (normalize_frame (OffsetWire.str 5) 5 false none).2 (Or.inr (Or.inr rfl))

/-! Claims about value decoding and parameter binding. -/

theorem decodeValue_intTagged (today : Int) (tv : TypedValue)
    (meta : Option ColumnMetaData) (hnull : tv.null = false)
    (htag : intRep tv.type = true) :
    decodeValue today { scalarValue := some tv } meta
      = decodeIntegerTagged tv meta := by
  obtain ⟨t, nl, bv, sv, nv, dv, bys, av, ct⟩ := tv
  have hnl : nl = false := hnull
  subst hnl
  cases t <;> first
    | rfl
    | simp [intRep, TypedValue.type] at htag

theorem decodeValue_defaultTagged (today : Int) (tv : TypedValue)
    (meta : Option ColumnMetaData) (hnull : tv.null = false)
    (hdef : defaultRep tv.type = true) :
    decodeValue today { scalarValue := some tv } meta = decodeFallback tv := by
  obtain ⟨t, nl, bv, sv, nv, dv, bys, av, ct⟩ := tv
  have hnl : nl = false := hnull
  subst hnl
  cases t <;> first
    | rfl
    | simp [defaultRep, TypedValue.type] at hdef

/-- Claim C3: an integer-tagged cell with a present numeric payload `w`
decodes, under column metadata declaring type name `DATE` or id 91, to a
`Date` at `w` days since epoch (`w * 86400000` ms); under metadata declaring
`TIMESTAMP` or id 93 (and not `DATE`/91, which is tested first), to a `Date`
at `w` ms since epoch; and with no metadata, no declared type, or any other
declared type, to the plain number `w`. -/
theorem date_disambiguation (today : Int) (tv : TypedValue) (w : WireNum)
    (meta : Option ColumnMetaData)
    (hnull : tv.null = false) (htag : intRep tv.type = true)
    (hnum : tv.numberValue = some w) :
    (∀ a : AvaticaType, meta.bind (fun m => m.type) = some a →
       (a.name = some "DATE" ∨ a.id = some 91) →
       decodeValue today { scalarValue := some tv } meta
         = JSValue.vDate (w.toNumberJS * 24 * 60 * 60 * 1000))
  ∧ (∀ a : AvaticaType, meta.bind (fun m => m.type) = some a →
       ¬ (a.name = some "DATE" ∨ a.id = some 91) →
       (a.name = some "TIMESTAMP" ∨ a.id = some 93) →
       decodeValue today { scalarValue := some tv } meta
         = JSValue.vDate w.toNumberJS)
  ∧ ((meta.bind (fun m => m.type) = none
      ∨ ∃ a : AvaticaType, meta.bind (fun m => m.type) = some a
          ∧ ¬ (a.name = some "DATE" ∨ a.id = some 91)
          ∧ ¬ (a.name = some "TIMESTAMP" ∨ a.id = some 93)) →
       decodeValue today { scalarValue := some tv } meta
         = JSValue.vNum w.toNumberJS) := by
  have hb := decodeValue_intTagged today tv meta hnull htag
  refine ⟨?_, ?_, ?_⟩
  · intro a hmeta hd
    rw [hb]
    unfold decodeIntegerTagged
    rw [hmeta]
    simp only [if_pos hd, hnum]
  · intro a hmeta hnd htd
    rw [hb]
    unfold decodeIntegerTagged
    rw [hmeta]
    simp only [if_neg hnd, if_pos htd, hnum]
  · intro hcase
    rw [hb]
    unfold decodeIntegerTagged
    rcases hcase with hnone | ⟨a, hmeta, hnd, hnt⟩
    · rw [hnone, hnum]
    · rw [hmeta]
      simp only [if_neg hnd, if_neg hnt, hnum]

/-- Concrete instance: a `LONG`-tagged cell holding boxed `19000` under
`DATE` metadata decodes to the date `19000 * 86400000` ms since epoch; the
same cell under `TIMESTAMP` metadata decodes to the date at `19000` ms; with
no metadata it decodes to the plain number. -/
theorem date_disambiguation_witness :
    decodeValue 0 { scalarValue := some (TypedValue.mk Rep.LONG false none none
        (some (WireNum.long 19000)) none none none none) }
      (some { type := some { id := some 91, name := some "DATE" } })
      = JSValue.vDate (19000 * 24 * 60 * 60 * 1000)
    ∧ decodeValue 0 { scalarValue := some (TypedValue.mk Rep.LONG false none none
        (some (WireNum.long 19000)) none none none none) }
      (some { type := some { id := some 93, name := some "TIMESTAMP" } })
      = JSValue.vDate 19000
    ∧ decodeValue 0 { scalarValue := some (TypedValue.mk Rep.LONG false none none
        (some (WireNum.long 19000)) none none none none) } none
      = JSValue.vNum 19000 := by
  refine ⟨?_, ?_, ?_⟩
  · exact (date_disambiguation 0 (TypedValue.mk Rep.LONG false none none (some (WireNum.long 19000)) none none none none) (WireNum.long 19000)
      (some { type := some { id := some 91, name := some "DATE" } })
      rfl rfl rfl).1 { id := some 91, name := some "DATE" } rfl (Or.inl rfl)
  · exact (date_disambiguation 0 (TypedValue.mk Rep.LONG false none none (some (WireNum.long 19000)) none none none none) (WireNum.long 19000)
      (some { type := some { id := some 93, name := some "TIMESTAMP" } })
      rfl rfl rfl).2.1 { id := some 93, name := some "TIMESTAMP" } rfl
      (by simp) (Or.inl rfl)
  · exact (date_disambiguation 0 (TypedValue.mk Rep.LONG false none none (some (WireNum.long 19000)) none none none none) (WireNum.long 19000) none
      rfl rfl rfl).2.2 (Or.inl rfl)

/-- Claim C8: a set null flag decodes to null before any tag dispatch; a cell
whose tag has no decode rule falls back to whichever payload field is
populated, tried in the fixed order string (non-empty), number, double,
bytes, array, boolean, and to null when none is. -/
theorem decode_null_first_and_fallback (today : Int) :
    (∀ (tv : TypedValue) (meta : Option ColumnMetaData), tv.null = true →
       decodeValue today { scalarValue := some tv } meta = JSValue.vNull)
  ∧ (∀ (tv : TypedValue) (meta : Option ColumnMetaData),
       tv.null = false → defaultRep tv.type = true →
       (∀ s, tv.stringValue = some s → s ≠ "" →
          decodeValue today { scalarValue := some tv } meta = JSValue.vStr s)
       ∧ (∀ w, (tv.stringValue = none ∨ tv.stringValue = some "") →
          tv.numberValue = some w →
          decodeValue today { scalarValue := some tv } meta
            = JSValue.vNum w.toNumberJS)
       ∧ (∀ q, (tv.stringValue = none ∨ tv.stringValue = some "") →
          tv.numberValue = none → tv.doubleValue = some q →
          decodeValue today { scalarValue := some tv } meta = JSValue.vDouble q)
       ∧ (∀ bs, (tv.stringValue = none ∨ tv.stringValue = some "") →
          tv.numberValue = none → tv.doubleValue = none →
          tv.bytesValue = some bs →
          decodeValue today { scalarValue := some tv } meta = JSValue.vBytes bs)
       ∧ (∀ xs, (tv.stringValue = none ∨ tv.stringValue = some "") →
          tv.numberValue = none → tv.doubleValue = none → tv.bytesValue = none →
          tv.arrayValue = some xs →
          decodeValue today { scalarValue := some tv } meta = JSValue.vArr xs)
       ∧ (∀ b, (tv.stringValue = none ∨ tv.stringValue = some "") →
          tv.numberValue = none → tv.doubleValue = none → tv.bytesValue = none →
          tv.arrayValue = none → tv.boolValue = some b →
          decodeValue today { scalarValue := some tv } meta = JSValue.vBool b)
       ∧ ((tv.stringValue = none ∨ tv.stringValue = some "") →
          tv.numberValue = none → tv.doubleValue = none → tv.bytesValue = none →
          tv.arrayValue = none → tv.boolValue = none →
          decodeValue today { scalarValue := some tv } meta = JSValue.vNull)) := by
  constructor
  · intro tv meta h
    obtain ⟨t, nl, bv, sv, nv, dv, bys, av, ct⟩ := tv
    have hnl : nl = true := h
    subst hnl
    rfl
  · intro tv meta hnull hdef
    have hb := decodeValue_defaultTagged today tv meta hnull hdef
    obtain ⟨t, nl, bv, sv, nv, dv, bys, av, ct⟩ := tv
    refine ⟨?_, ?_, ?_, ?_, ?_, ?_, ?_⟩
    · intro s hs hne
      rw [hb]
      have h1 : sv = some s := hs
      subst h1
      simp [decodeFallback, TypedValue.stringValue, hne]
    · intro w hsu hnv
      rw [hb]
      have h2 : nv = some w := hnv
      subst h2
      rcases hsu with h1 | h1
      all_goals
        first
          | (have h3 : sv = none := h1; subst h3; rfl)
          | (have h3 : sv = some "" := h1; subst h3; rfl)
    · intro q hsu hnv hdv
      rw [hb]
      have h2 : nv = none := hnv
      have h4 : dv = some q := hdv
      subst h2; subst h4
      rcases hsu with h1 | h1
      all_goals
        first
          | (have h3 : sv = none := h1; subst h3; rfl)
          | (have h3 : sv = some "" := h1; subst h3; rfl)
    · intro bs hsu hnv hdv hbs
      rw [hb]
      have h2 : nv = none := hnv
      have h4 : dv = none := hdv
      have h5 : bys = some bs := hbs
      subst h2; subst h4; subst h5
      rcases hsu with h1 | h1
      all_goals
        first
          | (have h3 : sv = none := h1; subst h3; rfl)
          | (have h3 : sv = some "" := h1; subst h3; rfl)
    · intro xs hsu hnv hdv hbs hav
      rw [hb]
      have h2 : nv = none := hnv
      have h4 : dv = none := hdv
      have h5 : bys = none := hbs
      have h6 : av = some xs := hav
      subst h2; subst h4; subst h5; subst h6
      rcases hsu with h1 | h1
      all_goals
        first
          | (have h3 : sv = none := h1; subst h3; rfl)
          | (have h3 : sv = some "" := h1; subst h3; rfl)
    · intro b hsu hnv hdv hbs hav hbv
      rw [hb]
      have h2 : nv = none := hnv
      have h4 : dv = none := hdv
      have h5 : bys = none := hbs
      have h6 : av = none := hav
      have h7 : bv = some b := hbv
      subst h2; subst h4; subst h5; subst h6; subst h7
      rcases hsu with h1 | h1
      all_goals
        first
          | (have h3 : sv = none := h1; subst h3; rfl)
          | (have h3 : sv = some "" := h1; subst h3; rfl)
    · intro hsu hnv hdv hbs hav hbv
      rw [hb]
      have h2 : nv = none := hnv
      have h4 : dv = none := hdv
      have h5 : bys = none := hbs
      have h6 : av = none := hav
      have h7 : bv = none := hbv
      subst h2; subst h4; subst h5; subst h6; subst h7
      rcases hsu with h1 | h1
      all_goals
        first
          | (have h3 : sv = none := h1; subst h3; rfl)
          | (have h3 : sv = some "" := h1; subst h3; rfl)

/-- Concrete instances: a null-flagged string cell decodes to null, and an
`OBJECT`-tagged cell with only a bytes payload falls back to the bytes. -/
theorem decode_null_first_and_fallback_witness :
    decodeValue 0 { scalarValue := some (TypedValue.mk Rep.STRING true none
        (some "ignored") none none none none none) } none = JSValue.vNull
    ∧ decodeValue 0 { scalarValue := some (TypedValue.mk Rep.OBJECT false none
        none none none (some [1, 2, 3]) none none) } none
      = JSValue.vBytes [1, 2, 3] := by
  constructor
  · exact (decode_null_first_and_fallback 0).1
      (TypedValue.mk Rep.STRING true none (some "ignored") none none none
        none none) none rfl
  · exact ((decode_null_first_and_fallback 0).2
      (TypedValue.mk Rep.OBJECT false none none none none (some [1, 2, 3])
        none none) none rfl rfl).2.2.2.1
      [1, 2, 3] (Or.inl rfl) rfl rfl rfl

/-- Claim C7: the parameter-binding conversion, rule by rule:
null/undefined → null-tagged; string → string-tagged; integral number →
`LONG` with the integer in the numeric payload; non-integral number →
`DOUBLE`; boolean → `BOOLEAN`; date → `JAVA_SQL_DATE` carrying
milliseconds-since-epoch in the numeric payload; byte sequence →
`BYTE_STRING`; array → `ARRAY` whose component type is the first encoded
element's tag, defaulting to `OBJECT` for an empty array; anything else →
string-tagged with the value's default string conversion. -/
theorem create_typed_value_rules :
    createTypedValue JSParam.jnull
      = TypedValue.mk Rep.NULL true none none none none none none none
  ∧ (∀ s, createTypedValue (JSParam.jstr s)
      = TypedValue.mk Rep.STRING false none (some s) none none none none none)
  ∧ (∀ q : Rat, q.den = 1 → createTypedValue (JSParam.jnum q)
      = TypedValue.mk Rep.LONG false none none (some (WireNum.plain q.num))
          none none none none)
  ∧ (∀ q : Rat, q.den ≠ 1 → createTypedValue (JSParam.jnum q)
      = TypedValue.mk Rep.DOUBLE false none none none (some q) none none none)
  ∧ (∀ b, createTypedValue (JSParam.jbool b)
      = TypedValue.mk Rep.BOOLEAN false (some b) none none none none none none)
  ∧ (∀ ms : Int, createTypedValue (JSParam.jdate ms)
      = TypedValue.mk Rep.JAVA_SQL_DATE false none none
          (some (WireNum.plain ms)) none none none none)
  ∧ (∀ bs, createTypedValue (JSParam.jbytes bs)
      = TypedValue.mk Rep.BYTE_STRING false none none none none (some bs)
          none none)
  ∧ (createTypedValue (JSParam.jarr [])
      = TypedValue.mk Rep.ARRAY false none none none none none (some [])
          (some Rep.OBJECT))
  ∧ (∀ x xs, createTypedValue (JSParam.jarr (x :: xs))
      = TypedValue.mk Rep.ARRAY false none none none none none
          (some (createTypedValue x :: createTypedValueList xs))
          (some (createTypedValue x).type))
  ∧ (∀ s, createTypedValue (JSParam.jobj s)
      = TypedValue.mk Rep.STRING false none (some s) none none none none none) := by
  refine ⟨rfl, fun s => rfl, ?_, ?_, fun b => rfl, fun ms => rfl, fun bs => rfl,
    ?_, ?_, fun s => rfl⟩
  · intro q hq
    simp [createTypedValue, hq]
  · intro q hq
    simp [createTypedValue, hq]
  · simp [createTypedValue, createTypedValueList]
  · intro x xs
    simp [createTypedValue, createTypedValueList]

/-- Concrete instances: `3` binds as a `LONG`, `5/2` as a `DOUBLE`, and a
non-empty heterogeneous-looking array takes its component type from its
first encoded element. -/
theorem create_typed_value_rules_witness :
    createTypedValue (JSParam.jnum 3)
      = TypedValue.mk Rep.LONG false none none (some (WireNum.plain 3))
          none none none none
    ∧ createTypedValue (JSParam.jnum ⟨5, 2, by decide, by decide⟩)
      = TypedValue.mk Rep.DOUBLE false none none none
          (some ⟨5, 2, by decide, by decide⟩) none none none
    ∧ createTypedValue (JSParam.jarr [JSParam.jbool true, JSParam.jstr "x"])
      = TypedValue.mk Rep.ARRAY false none none none none none
          (some [TypedValue.mk Rep.BOOLEAN false (some true) none none none
                   none none none,
                 TypedValue.mk Rep.STRING false none (some "x") none none
                   none none none])
          (some Rep.BOOLEAN) := by
  refine ⟨?_, ?_, ?_⟩
  · exact create_typed_value_rules.2.2.1 3 rfl
  · exact create_typed_value_rules.2.2.2.1 ⟨5, 2, by decide, by decide⟩
      (by decide)
  · exact create_typed_value_rules.2.2.2.2.2.2.2.2.1
      (JSParam.jbool true) [JSParam.jstr "x"]

end CIP
